import Mathlib

/-!
Verification of the token-budget tracking and checkpoint/resume core of the
life-os-mobile repository. The TypeScript sources are shallowly embedded:
the shared token-monitor library (estimateTokens, calculateTokenUsage,
needsCheckpoint, isCritical, getSessionStatus, generateContinuationPrompt),
the client chat page (updateTokenUsage, handleSaveCheckpoint, handleResume
and the client-side prompt generator), and the checkpoint API route (POST
demote-then-insert, PATCH status update). JavaScript numbers are modelled as
Nat for counts and as exact rationals for the percent-used quotient;
JavaScript strings as Lean strings (one Char per UTF-16 unit); the falsy
fallback `x || y` on optional numbers and on strings is modelled explicitly.
-/

namespace LifeOS

/-- Message role, the union type `user | assistant`. -/
inductive Role where
  | user
  | assistant
deriving DecidableEq

/-- One conversation turn (interface Message of the token-monitor library and
of the chat page; the `tokens` field is optional in the source). -/
structure Message where
  id : String
  role : Role
  content : String
  timestamp : String
  tokens : Option Nat
deriving DecidableEq

/-- JavaScript `a || b` where `a` is an optional numeric field: the fallback
fires when the field is absent or when it is zero (both are falsy). -/
def jsOrNat : Option Nat → Nat → Nat
  | some v, b => if v = 0 then b else v
  | none, b => b

/-- JavaScript `a || b` on strings: the fallback fires when `a` is empty. -/
def jsOrString (a b : String) : String :=
  if a = "" then b else a

/-- The MODEL_LIMITS record of the token-monitor library, as a partial map
from model identifier to context limit. -/
def MODEL_LIMITS (key : String) : Option Nat :=
  if key = "claude-sonnet-4-20250514" then some 180000
  else if key = "claude-opus-4-5-20251101" then some 180000
  else if key = "claude-3-5-sonnet-20241022" then some 180000
  else if key = "default" then some 150000
  else none

/-- The limit lookup `MODEL_LIMITS[model] || MODEL_LIMITS.default`
(the default entry holds 150000). -/
def modelLimit (model : String) : Nat :=
  jsOrNat (MODEL_LIMITS model) 150000

/-- Checkpoint threshold 0.70 of the token-monitor library. -/
def CHECKPOINT_THRESHOLD : ℚ := 70 / 100

/-- Warning threshold 0.85 of the token-monitor library. -/
def WARNING_THRESHOLD : ℚ := 85 / 100

/-- Aggregate token counters (interface TokenUsage of the library). -/
structure TokenUsage where
  inputTokens : Nat
  outputTokens : Nat
  totalTokens : Nat
  percentUsed : ℚ
  model : String
deriving DecidableEq

/-- Token estimation `Math.ceil(text.length / 4)`. -/
def estimateTokens (text : String) : Nat :=
  ⌈(text.length : ℚ) / 4⌉₊

/-- The per-message count used by calculateTokenUsage:
`msg.tokens || estimateTokens(msg.content)`. -/
def messageTokens (msg : Message) : Nat :=
  jsOrNat msg.tokens (estimateTokens msg.content)

/-- The body of the forEach loop of calculateTokenUsage: add the message
count to the input tally for a user turn, to the output tally otherwise. -/
def tallyMessage (acc : Nat × Nat) (msg : Message) : Nat × Nat :=
  match msg.role with
  | Role.user => (acc.1 + messageTokens msg, acc.2)
  | Role.assistant => (acc.1, acc.2 + messageTokens msg)

/-- Bulk recomputation of TokenUsage from a full message list
(calculateTokenUsage of the token-monitor library). -/
def calculateTokenUsage (messages : List Message) (model : String) : TokenUsage :=
  let limit := modelLimit model
  let tally := messages.foldl tallyMessage (0, 0)
  let inputTokens := tally.1
  let outputTokens := tally.2
  let totalTokens := inputTokens + outputTokens
  { inputTokens := inputTokens
    outputTokens := outputTokens
    totalTokens := totalTokens
    percentUsed := (totalTokens : ℚ) / (limit : ℚ)
    model := model }

/-- needsCheckpoint of the token-monitor library. -/
def needsCheckpoint (tokenUsage : TokenUsage) : Bool :=
  decide (tokenUsage.percentUsed ≥ CHECKPOINT_THRESHOLD)

/-- isCritical of the token-monitor library. -/
def isCritical (tokenUsage : TokenUsage) : Bool :=
  decide (tokenUsage.percentUsed ≥ WARNING_THRESHOLD)

/-- Derived session status, the union `active | warning | critical`. -/
inductive SessionStatus where
  | active
  | warning
  | critical
deriving DecidableEq

/-- getSessionStatus of the token-monitor library. -/
def getSessionStatus (tokenUsage : TokenUsage) : SessionStatus :=
  if tokenUsage.percentUsed ≥ WARNING_THRESHOLD then SessionStatus.critical
  else if tokenUsage.percentUsed ≥ CHECKPOINT_THRESHOLD then SessionStatus.warning
  else SessionStatus.active

/-- Severity order on statuses, for stating that status never regresses. -/
def statusRank : SessionStatus → Nat
  | SessionStatus.active => 0
  | SessionStatus.warning => 1
  | SessionStatus.critical => 2

/-- A TokenUsage with a given percentUsed, for stating threshold facts. -/
def usageAt (p : ℚ) : TokenUsage :=
  { inputTokens := 0
    outputTokens := 0
    totalTokens := 0
    percentUsed := p
    model := "claude-sonnet-4-20250514" }

/-- The TokenUsage state of the chat page (no model field there). -/
structure ClientTokenUsage where
  inputTokens : Nat
  outputTokens : Nat
  totalTokens : Nat
  percentUsed : ℚ
deriving DecidableEq

/-- The MODEL_LIMIT constant of the chat page. -/
def MODEL_LIMIT : Nat := 180000

/-- The initial (and reset) token usage state of the chat page. -/
def initialTokenUsage : ClientTokenUsage :=
  { inputTokens := 0, outputTokens := 0, totalTokens := 0, percentUsed := 0 }

/-- updateTokenUsage of the chat page: add the two deltas and recompute
percentUsed against the fixed MODEL_LIMIT. -/
def updateTokenUsage (prev : ClientTokenUsage)
    (newInputTokens newOutputTokens : Nat) : ClientTokenUsage :=
  let totalTokens := prev.totalTokens + newInputTokens + newOutputTokens
  { inputTokens := prev.inputTokens + newInputTokens
    outputTokens := prev.outputTokens + newOutputTokens
    totalTokens := totalTokens
    percentUsed := (totalTokens : ℚ) / (MODEL_LIMIT : ℚ) }

/-- One turn of the incremental path: feed the per-message count of a turn
to updateTokenUsage as an input delta for a user turn, as an output delta
for an assistant turn. -/
def applyTurn (u : ClientTokenUsage) (msg : Message) : ClientTokenUsage :=
  match msg.role with
  | Role.user => updateTokenUsage u (messageTokens msg) 0
  | Role.assistant => updateTokenUsage u 0 (messageTokens msg)

/-- Accumulating deltas turn-by-turn over a whole message list, starting
from the initial zero usage. -/
def accumulateTokenUsage (messages : List Message) : ClientTokenUsage :=
  messages.foldl applyTurn initialTokenUsage

/-- The client usage values the page can hold: the zeroed initial state and
everything reachable from it by updateTokenUsage. -/
inductive ProducedUsage : ClientTokenUsage → Prop where
  | init : ProducedUsage initialTokenUsage
  | step (u : ClientTokenUsage) (newInputTokens newOutputTokens : Nat) :
      ProducedUsage u → ProducedUsage (updateTokenUsage u newInputTokens newOutputTokens)

/-- JavaScript `role.toUpperCase()` on the two role strings. -/
def roleUpper : Role → String
  | Role.user => "USER"
  | Role.assistant => "ASSISTANT"

/-- JavaScript `s.slice(0, n)`: the prefix of at most n units. -/
def jsSliceTo (s : String) (n : Nat) : String :=
  String.mk (s.data.take n)

/-- JavaScript `xs.slice(-n)`: the last n elements (all of them when the
list has fewer than n). -/
def lastSlice (n : Nat) (xs : List Message) : List Message :=
  xs.drop (xs.length - n)

/-- The SessionCheckpoint record of the token-monitor library. The
contextVariables field stands for the JSON rendering
`JSON.stringify(checkpoint.contextVariables, null, 2)` of the caller-opaque
key-value payload, which the prompt generator splices in verbatim. -/
structure SessionCheckpoint where
  id : String
  sessionId : String
  timestamp : String
  taskDescription : String
  completedSteps : List String
  currentStep : String
  nextSteps : List String
  messages : List Message
  tokenUsage : TokenUsage
  contextVariables : String
  status : String
  continuationPrompt : String
deriving DecidableEq

/-- The per-message renderer of the backend prompt generator:
role uppercased, content cut to 200 units, a three-dot marker appended. -/
def renderRecentMessage (m : Message) : String :=
  roleUpper m.role ++ ": " ++ jsSliceTo m.content 200 ++ "..."

/-- generateContinuationPrompt of the token-monitor library. -/
def generateContinuationPrompt (checkpoint : SessionCheckpoint) : String :=
  let recentMessages := lastSlice 5 checkpoint.messages
  let messagesSummary := String.intercalate "\n" (recentMessages.map renderRecentMessage)
  ("## SESSION RESUME - " ++ checkpoint.id ++
   "\n\n**Task:** " ++ checkpoint.taskDescription ++
   "\n\n### Progress\n**Completed:**\n" ++
   String.intercalate "\n" (checkpoint.completedSteps.map (fun s => "- ✅ " ++ s)) ++
   "\n\n**Current:** " ++ checkpoint.currentStep ++
   "\n\n**Next Steps:**\n" ++
   String.intercalate "\n" (checkpoint.nextSteps.map (fun s => "- ⏳ " ++ s)) ++
   "\n\n### Recent Context\n" ++ messagesSummary ++
   "\n\n### Variables\n" ++ checkpoint.contextVariables ++ "\n\n") ++
  ("**INSTRUCTION:** Continue from \"" ++ checkpoint.currentStep ++
   "\" immediately. No confirmation needed.")

/-- The per-message renderer of the client prompt generator on the chat
page: content cut to 150 units, the same three-dot marker appended. -/
def clientRenderRecentMessage (m : Message) : String :=
  roleUpper m.role ++ ": " ++ jsSliceTo m.content 150 ++ "..."

/-- generateContinuationPrompt of the chat page (closure over the message
list and the checkpointTask input field). -/
def clientGenerateContinuationPrompt (messages : List Message)
    (checkpointTask : String) : String :=
  let recentMessages := lastSlice 6 messages
  let summary := String.intercalate "\n" (recentMessages.map clientRenderRecentMessage)
  ("## SESSION RESUME" ++
   "\n\n**Task:** " ++ jsOrString checkpointTask "Continuing previous conversation" ++
   "\n\n### Recent Context:\n" ++ summary ++ "\n\n") ++
  "**INSTRUCTION:** Continue the conversation from where we left off. No need to reintroduce yourself or ask what we were doing - just pick up naturally."

/-- One row of the session_checkpoints table (checkpoint record wire
shape). The status column is the TEXT enum of the migration. -/
structure StoredCheckpoint where
  id : String
  sessionId : String
  taskDescription : String
  completedSteps : List String
  currentStep : String
  nextSteps : List String
  messages : List Message
  tokenUsage : ClientTokenUsage
  contextVariables : String
  continuationPrompt : String
  status : String
  createdAt : String
  updatedAt : String
deriving DecidableEq

/-- The checkpoint payload the chat page posts and the POST route reads. -/
structure CheckpointPost where
  id : String
  sessionId : String
  timestamp : String
  taskDescription : String
  completedSteps : List String
  currentStep : String
  nextSteps : List String
  messages : List Message
  tokenUsage : ClientTokenUsage
  contextVariables : String
  continuationPrompt : String
deriving DecidableEq

/-- The row condition of the demote update in the POST route:
`eq(status, active)` and `eq(session_id, sessionId)`. -/
def isActiveFor (sessionId : String) (r : StoredCheckpoint) : Bool :=
  decide (r.status = "active") && decide (r.sessionId = sessionId)

/-- The first step of the POST route: set status superseded on every row
with status active and the same session id. -/
def demoteActive (sessionId : String) (rows : List StoredCheckpoint) : List StoredCheckpoint :=
  rows.map fun r =>
    if isActiveFor sessionId r then { r with status := "superseded" } else r

/-- The row the POST route inserts: the posted fields, status set to the
literal active, created_at taken from the posted timestamp, updated_at
filled by the database default. -/
def rowOfPost (cp : CheckpointPost) (dbNow : String) : StoredCheckpoint :=
  { id := cp.id
    sessionId := cp.sessionId
    taskDescription := cp.taskDescription
    completedSteps := cp.completedSteps
    currentStep := cp.currentStep
    nextSteps := cp.nextSteps
    messages := cp.messages
    tokenUsage := cp.tokenUsage
    contextVariables := cp.contextVariables
    continuationPrompt := cp.continuationPrompt
    status := "active"
    createdAt := cp.timestamp
    updatedAt := dbNow }

/-- The store effect of the POST route: demote existing active rows of the
same session, then insert the new row with status active. -/
def insertCheckpoint (cp : CheckpointPost) (dbNow : String)
    (rows : List StoredCheckpoint) : List StoredCheckpoint :=
  demoteActive cp.sessionId rows ++ [rowOfPost cp dbNow]

/-- The rows of a session that hold status active. -/
def activeFor (sessionId : String) (rows : List StoredCheckpoint) : List StoredCheckpoint :=
  rows.filter (isActiveFor sessionId)

/-- The store effect of the PATCH route: set the given status and stamp
updated_at on the row with the given id. -/
def updateStatus (id status nowTs : String)
    (rows : List StoredCheckpoint) : List StoredCheckpoint :=
  rows.map fun r =>
    if r.id = id then { r with status := status, updatedAt := nowTs } else r

/-- The in-memory conversation state of the chat page that the checkpoint
flow touches: messages, tokenUsage, sessionId. -/
structure SessionSnapshot where
  messages : List Message
  tokenUsage : ClientTokenUsage
  sessionId : String
deriving DecidableEq

/-- How the save request can come back to the page. A fetch promise rejects
only on a network error; a response carries a success or error status, and
the page never reads it. -/
inductive SaveOutcome where
  | networkError
  | httpResponse (storeWriteSucceeded : Bool)
deriving DecidableEq

/-- handleSaveCheckpoint of the chat page, restricted to the session fields
it mutates: on any resolved response it clears the messages, zeroes the
usage and draws a fresh session id; only a rejected fetch reaches the catch
block, which leaves the state unchanged. -/
def handleSaveCheckpoint (st : SessionSnapshot) (outcome : SaveOutcome)
    (freshId : String) : SessionSnapshot :=
  match outcome with
  | SaveOutcome.networkError => st
  | SaveOutcome.httpResponse _ =>
      { messages := [], tokenUsage := initialTokenUsage, sessionId := freshId }

/-- The Checkpoint interface of the chat page. -/
structure Checkpoint where
  id : String
  sessionId : String
  taskDescription : String
  completedSteps : List String
  currentStep : String
  nextSteps : List String
  messages : List Message
  tokenUsage : ClientTokenUsage
  continuationPrompt : String
  status : String
deriving DecidableEq

/-- What handleResume leaves behind: the rehydrated session state, the PATCH
body it sends (checkpoint id and new status), and the content it then hands
to handleSend as the first new turn. -/
structure ResumeEffect where
  state : SessionSnapshot
  statusUpdate : String × String
  submitted : String
deriving DecidableEq

/-- handleResume of the chat page: rehydrate messages, usage and session id
from the checkpoint, PATCH its status to resumed, append the user-authored
resume message holding the stored continuation prompt, and submit that
prompt. -/
def handleResume (cp : Checkpoint) (resumeMessageId nowTs : String) : ResumeEffect :=
  let resumeMessage : Message :=
    { id := resumeMessageId
      role := Role.user
      content := cp.continuationPrompt
      timestamp := nowTs
      tokens := none }
  { state :=
      { messages := cp.messages ++ [resumeMessage]
        tokenUsage := cp.tokenUsage
        sessionId := cp.sessionId }
    statusUpdate := (cp.id, "resumed")
    submitted := cp.continuationPrompt }

/-- A sample user message of four characters for concrete instances. -/
def sampleUserMessage : Message :=
  { id := "m1", role := Role.user, content := "abcd", timestamp := "t0", tokens := none }

/-- A sample checkpoint payload for concrete instances. -/
def samplePost (sid cid : String) : CheckpointPost :=
  { id := cid
    sessionId := sid
    timestamp := "2025-01-01T00:00:00Z"
    taskDescription := "Fix billing bug"
    completedSteps := []
    currentStep := "Debugging invoice calc"
    nextSteps := ["Write test", "Deploy"]
    messages := []
    tokenUsage := initialTokenUsage
    contextVariables := ""
    continuationPrompt := "resume here" }

/-- A sample stored row for concrete instances. -/
def sampleStored : StoredCheckpoint :=
  rowOfPost (samplePost "s1" "c1") "n1"

/-- A sample client-side checkpoint for concrete instances. -/
def sampleCheckpoint : Checkpoint :=
  { id := "c1"
    sessionId := "s1"
    taskDescription := "Fix billing bug"
    completedSteps := ["Reproduced bug"]
    currentStep := "Debugging invoice calc"
    nextSteps := ["Write test", "Deploy"]
    messages := [sampleUserMessage]
    tokenUsage := initialTokenUsage
    continuationPrompt := "continue now"
    status := "active" }

/-- A sample library checkpoint for concrete instances. -/
def sampleSessionCheckpoint : SessionCheckpoint :=
  { id := "c9"
    sessionId := "s1"
    timestamp := "t0"
    taskDescription := "Fix billing bug"
    completedSteps := ["Reproduced bug"]
    currentStep := "Debugging invoice calc"
    nextSteps := ["Write test", "Deploy"]
    messages := [sampleUserMessage]
    tokenUsage := usageAt 0
    contextVariables := ""
    status := "active"
    continuationPrompt := "" }

/-! Helper lemmas. -/

/-- Ceiling of a quarter as natural division. -/
theorem ceil_div_four (n : ℕ) : ⌈(n : ℚ) / 4⌉₊ = (n + 3) / 4 := by
  apply le_antisymm
  · rw [Nat.ceil_le, div_le_iff₀ (by norm_num : (0 : ℚ) < 4)]
    have h2 : n ≤ ((n + 3) / 4) * 4 := by omega
    exact_mod_cast h2
  · have h := Nat.le_ceil ((n : ℚ) / 4)
    rw [div_le_iff₀ (by norm_num : (0 : ℚ) < 4)] at h
    have h3 : n ≤ ⌈(n : ℚ) / 4⌉₊ * 4 := by exact_mod_cast h
    omega

/-- The estimator as integer arithmetic. -/
theorem estimateTokens_eq (text : String) :
    estimateTokens text = (text.length + 3) / 4 := by
  rw [estimateTokens, ceil_div_four]

/-- Shifting the accumulator out of the tally fold. -/
theorem foldl_tally_shift (messages : List Message) (p : Nat × Nat) :
    messages.foldl tallyMessage p =
      (p.1 + (messages.foldl tallyMessage (0, 0)).1,
       p.2 + (messages.foldl tallyMessage (0, 0)).2) := by
  induction messages generalizing p with
  | nil => simp
  | cons m ms ih =>
    simp only [List.foldl_cons]
    rw [ih (tallyMessage p m), ih (tallyMessage (0, 0) m)]
    cases h : m.role <;>
      simp only [tallyMessage, h, Prod.mk.injEq] <;>
      constructor <;> omega

/-- The incremental fold tracks the tally fold componentwise and keeps
percentUsed equal to the running total over the fixed page limit. -/
theorem foldl_applyTurn_spec (messages : List Message) (u : ClientTokenUsage)
    (ht : u.totalTokens = u.inputTokens + u.outputTokens)
    (hp : u.percentUsed = (u.totalTokens : ℚ) / (MODEL_LIMIT : ℚ)) :
    (messages.foldl applyTurn u).inputTokens =
      (messages.foldl tallyMessage (u.inputTokens, u.outputTokens)).1 ∧
    (messages.foldl applyTurn u).outputTokens =
      (messages.foldl tallyMessage (u.inputTokens, u.outputTokens)).2 ∧
    (messages.foldl applyTurn u).totalTokens =
      (messages.foldl tallyMessage (u.inputTokens, u.outputTokens)).1 +
      (messages.foldl tallyMessage (u.inputTokens, u.outputTokens)).2 ∧
    (messages.foldl applyTurn u).percentUsed =
      ((messages.foldl applyTurn u).totalTokens : ℚ) / (MODEL_LIMIT : ℚ) := by
  induction messages generalizing u with
  | nil => exact ⟨rfl, rfl, ht, hp⟩
  | cons m ms ih =>
    simp only [List.foldl_cons]
    cases h : m.role
    case user =>
      have step := ih (updateTokenUsage u (messageTokens m) 0)
        (by simp only [updateTokenUsage]; omega)
        (by simp only [updateTokenUsage])
      simpa [applyTurn, tallyMessage, h, updateTokenUsage] using step
    case assistant =>
      have step := ih (updateTokenUsage u 0 (messageTokens m))
        (by simp only [updateTokenUsage]; omega)
        (by simp only [updateTokenUsage])
      simpa [applyTurn, tallyMessage, h, updateTokenUsage] using step

/-- Demoting clears every active row of the session. -/
theorem activeFor_demoteActive (sessionId : String) (rows : List StoredCheckpoint) :
    activeFor sessionId (demoteActive sessionId rows) = [] := by
  induction rows with
  | nil => rfl
  | cons r rs ih =>
    simp only [demoteActive, List.map_cons, activeFor, List.filter_cons] at ih ⊢
    by_cases h : isActiveFor sessionId r
    · rw [if_pos h]
      have hsup : isActiveFor sessionId { r with status := "superseded" } = false := by
        simp [isActiveFor]
      rw [hsup]
      simpa using ih
    · rw [if_neg h]
      rw [Bool.not_eq_true] at h
      rw [h]
      simpa using ih

/-- After one insert the active rows of the session are exactly the new row. -/
theorem activeFor_insert (cp : CheckpointPost) (dbNow : String)
    (rows : List StoredCheckpoint) :
    activeFor cp.sessionId (insertCheckpoint cp dbNow rows) = [rowOfPost cp dbNow] := by
  have hrow : isActiveFor cp.sessionId (rowOfPost cp dbNow) = true := by
    simp [isActiveFor, rowOfPost]
  simp only [insertCheckpoint, activeFor, List.filter_append]
  rw [show (demoteActive cp.sessionId rows).filter (isActiveFor cp.sessionId) =
        activeFor cp.sessionId (demoteActive cp.sessionId rows) from rfl,
      activeFor_demoteActive]
  simp [hrow]

/-- Critical exactly from 0.85 up. -/
theorem getSessionStatus_critical_iff (u : TokenUsage) :
    getSessionStatus u = SessionStatus.critical ↔ (85 / 100 : ℚ) ≤ u.percentUsed := by
  unfold getSessionStatus WARNING_THRESHOLD CHECKPOINT_THRESHOLD
  split_ifs with h1 h2 <;> simp_all

/-- Warning exactly on the band from 0.70 up to below 0.85. -/
theorem getSessionStatus_warning_iff (u : TokenUsage) :
    getSessionStatus u = SessionStatus.warning ↔
      (70 / 100 : ℚ) ≤ u.percentUsed ∧ u.percentUsed < (85 / 100 : ℚ) := by
  unfold getSessionStatus WARNING_THRESHOLD CHECKPOINT_THRESHOLD
  split_ifs with h1 h2 <;> simp_all <;> first | linarith | (intro hh; linarith)

/-- Active exactly below 0.70. -/
theorem getSessionStatus_active_iff (u : TokenUsage) :
    getSessionStatus u = SessionStatus.active ↔ u.percentUsed < (70 / 100 : ℚ) := by
  unfold getSessionStatus WARNING_THRESHOLD CHECKPOINT_THRESHOLD
  split_ifs with h1 h2 <;> simp_all <;> linarith

/-- The status never regresses as percentUsed increases. -/
theorem statusRank_mono (u v : TokenUsage) (h : u.percentUsed ≤ v.percentUsed) :
    statusRank (getSessionStatus u) ≤ statusRank (getSessionStatus v) := by
  unfold getSessionStatus
  split_ifs <;> simp only [statusRank] <;>
    first | decide | (exfalso; linarith)

/-! Claim theorems. -/

/-- C2: getSessionStatus is critical exactly at percentUsed at least 0.85,
warning exactly on the band from 0.70 up to below 0.85, active exactly
below 0.70; needsCheckpoint holds exactly from 0.70 and isCritical exactly
from 0.85, with inclusive boundaries; at 0.69, 0.70, 0.84, 0.85, 0.86 the
statuses are active, warning, warning, critical, critical; and the status
never regresses as percentUsed increases. -/
theorem threshold_evaluator_spec :
    (∀ u : TokenUsage,
      (getSessionStatus u = SessionStatus.critical ↔ (85 / 100 : ℚ) ≤ u.percentUsed) ∧
      (getSessionStatus u = SessionStatus.warning ↔
        (70 / 100 : ℚ) ≤ u.percentUsed ∧ u.percentUsed < (85 / 100 : ℚ)) ∧
      (getSessionStatus u = SessionStatus.active ↔ u.percentUsed < (70 / 100 : ℚ)) ∧
      (needsCheckpoint u = true ↔ (70 / 100 : ℚ) ≤ u.percentUsed) ∧
      (isCritical u = true ↔ (85 / 100 : ℚ) ≤ u.percentUsed)) ∧
    (getSessionStatus (usageAt (69 / 100)) = SessionStatus.active ∧
     getSessionStatus (usageAt (70 / 100)) = SessionStatus.warning ∧
     getSessionStatus (usageAt (84 / 100)) = SessionStatus.warning ∧
     getSessionStatus (usageAt (85 / 100)) = SessionStatus.critical ∧
     getSessionStatus (usageAt (86 / 100)) = SessionStatus.critical) ∧
    ∀ u v : TokenUsage, u.percentUsed ≤ v.percentUsed →
      statusRank (getSessionStatus u) ≤ statusRank (getSessionStatus v) := by
  refine ⟨fun u => ⟨getSessionStatus_critical_iff u, getSessionStatus_warning_iff u,
    getSessionStatus_active_iff u, ?_, ?_⟩, ⟨?_, ?_, ?_, ?_, ?_⟩, statusRank_mono⟩
  · unfold needsCheckpoint CHECKPOINT_THRESHOLD
    simp [ge_iff_le]
  · unfold isCritical WARNING_THRESHOLD
    simp [ge_iff_le]
  · rw [getSessionStatus_active_iff]
    norm_num [usageAt]
  · rw [getSessionStatus_warning_iff]
    norm_num [usageAt]
  · rw [getSessionStatus_warning_iff]
    norm_num [usageAt]
  · rw [getSessionStatus_critical_iff]
    norm_num [usageAt]
  · rw [getSessionStatus_critical_iff]
    norm_num [usageAt]

/-- Witness for C2 at concrete usages. -/
theorem threshold_evaluator_spec_witness :
    needsCheckpoint (usageAt (70 / 100)) = true ∧
    statusRank (getSessionStatus (usageAt (69 / 100))) ≤
      statusRank (getSessionStatus (usageAt (70 / 100))) :=
  ⟨((threshold_evaluator_spec.1 (usageAt (70 / 100))).2.2.2.1).mpr (by norm_num [usageAt]),
   threshold_evaluator_spec.2.2 (usageAt (69 / 100)) (usageAt (70 / 100)) (by norm_num [usageAt])⟩

/-- C4: totalTokens equals inputTokens plus outputTokens on every bulk
recomputation, and the incremental update preserves that equation, so every
usage value the page produces from the zero initial state satisfies it. -/
theorem totalTokens_eq_input_add_output :
    (∀ (messages : List Message) (model : String),
      (calculateTokenUsage messages model).totalTokens =
        (calculateTokenUsage messages model).inputTokens +
          (calculateTokenUsage messages model).outputTokens) ∧
    (∀ (prev : ClientTokenUsage) (newInputTokens newOutputTokens : Nat),
      prev.totalTokens = prev.inputTokens + prev.outputTokens →
      (updateTokenUsage prev newInputTokens newOutputTokens).totalTokens =
        (updateTokenUsage prev newInputTokens newOutputTokens).inputTokens +
          (updateTokenUsage prev newInputTokens newOutputTokens).outputTokens) ∧
    ∀ u : ClientTokenUsage, ProducedUsage u →
      u.totalTokens = u.inputTokens + u.outputTokens := by
  refine ⟨fun messages model => rfl, ?_, ?_⟩
  · intro prev newInputTokens newOutputTokens h
    simp only [updateTokenUsage]
    omega
  · intro u h
    induction h with
    | init => rfl
    | step u newInputTokens newOutputTokens _ ih =>
      simp only [updateTokenUsage]
      omega

/-- Witness for C4 at a concrete update and the initial state. -/
theorem totalTokens_eq_input_add_output_witness :
    (updateTokenUsage initialTokenUsage 40 200).totalTokens =
      (updateTokenUsage initialTokenUsage 40 200).inputTokens +
        (updateTokenUsage initialTokenUsage 40 200).outputTokens ∧
    initialTokenUsage.totalTokens =
      initialTokenUsage.inputTokens + initialTokenUsage.outputTokens :=
  ⟨totalTokens_eq_input_add_output.2.1 initialTokenUsage 40 200 rfl,
   totalTokens_eq_input_add_output.2.2 initialTokenUsage ProducedUsage.init⟩

/-- C7: percentUsed is totalTokens over the model limit; the three known
model identifiers resolve to 180000 and every other identifier to the
default 150000. -/
theorem percentUsed_model_limit_spec :
    (∀ (messages : List Message) (model : String),
      (calculateTokenUsage messages model).percentUsed =
        ((calculateTokenUsage messages model).totalTokens : ℚ) / (modelLimit model : ℚ)) ∧
    modelLimit "claude-sonnet-4-20250514" = 180000 ∧
    modelLimit "claude-opus-4-5-20251101" = 180000 ∧
    modelLimit "claude-3-5-sonnet-20241022" = 180000 ∧
    ∀ model : String, model ≠ "claude-sonnet-4-20250514" →
      model ≠ "claude-opus-4-5-20251101" → model ≠ "claude-3-5-sonnet-20241022" →
      modelLimit model = 150000 := by
  refine ⟨fun messages model => rfl, rfl, rfl, rfl, ?_⟩
  intro model h1 h2 h3
  unfold modelLimit MODEL_LIMITS
  rw [if_neg h1, if_neg h2, if_neg h3]
  by_cases h4 : model = "default"
  · rw [if_pos h4]
    rfl
  · rw [if_neg h4]
    rfl

/-- Witness for C7 at an unrecognized model identifier. -/
theorem percentUsed_model_limit_spec_witness :
    modelLimit "gpt-4o" = 150000 :=
  percentUsed_model_limit_spec.2.2.2.2 "gpt-4o" (by decide) (by decide) (by decide)

/-- C8: estimateTokens is the ceiling of a quarter of the text length
(equivalently integer division with rounding up), the empty text maps to 0,
and the result depends only on the length of the text. -/
theorem estimateTokens_spec :
    (∀ text : String, estimateTokens text = ⌈(text.length : ℚ) / 4⌉₊) ∧
    (∀ text : String, estimateTokens text = (text.length + 3) / 4) ∧
    estimateTokens "" = 0 ∧
    ∀ s t : String, s.length = t.length → estimateTokens s = estimateTokens t := by
  refine ⟨fun text => rfl, estimateTokens_eq, ?_, ?_⟩
  · rw [estimateTokens_eq]
    rfl
  · intro s t h
    rw [estimateTokens_eq, estimateTokens_eq, h]

/-- Witness for C8 at two texts of the same length. -/
theorem estimateTokens_spec_witness :
    estimateTokens "abcde" = estimateTokens "vwxyz" :=
  estimateTokens_spec.2.2.2 "abcde" "vwxyz" rfl

/-- C1 (amended): accumulating deltas turn-by-turn with updateTokenUsage
always agrees with calculateTokenUsage on inputTokens, outputTokens and
totalTokens, and also agrees on percentUsed whenever the limit of the model
resolves to the fixed page limit 180000 (so for every known model
identifier); for an unrecognized model the incremental path divides by
180000 while the bulk path divides by the 150000 default. -/
theorem accumulate_agrees_with_calculate (messages : List Message) (model : String) :
    (accumulateTokenUsage messages).inputTokens =
      (calculateTokenUsage messages model).inputTokens ∧
    (accumulateTokenUsage messages).outputTokens =
      (calculateTokenUsage messages model).outputTokens ∧
    (accumulateTokenUsage messages).totalTokens =
      (calculateTokenUsage messages model).totalTokens ∧
    (modelLimit model = 180000 →
      (accumulateTokenUsage messages).percentUsed =
        (calculateTokenUsage messages model).percentUsed) := by
  have h := foldl_applyTurn_spec messages initialTokenUsage rfl
    (by norm_num [initialTokenUsage, MODEL_LIMIT])
  rw [show (initialTokenUsage.inputTokens, initialTokenUsage.outputTokens) =
      ((0 : Nat), (0 : Nat)) from rfl] at h
  refine ⟨h.1, h.2.1, h.2.2.1, fun hl => ?_⟩
  rw [show (accumulateTokenUsage messages).percentUsed =
        (messages.foldl applyTurn initialTokenUsage).percentUsed from rfl,
      h.2.2.2, h.2.2.1]
  show (((messages.foldl tallyMessage (0, 0)).1 +
      (messages.foldl tallyMessage (0, 0)).2 : ℕ) : ℚ) / (MODEL_LIMIT : ℚ) =
    (((messages.foldl tallyMessage (0, 0)).1 +
      (messages.foldl tallyMessage (0, 0)).2 : ℕ) : ℚ) / (modelLimit model : ℚ)
  rw [hl]
  rfl

/-- Witness for C1 amended at one concrete message and a known model. -/
theorem accumulate_agrees_with_calculate_witness :
    (accumulateTokenUsage [sampleUserMessage]).percentUsed =
      (calculateTokenUsage [sampleUserMessage] "claude-sonnet-4-20250514").percentUsed :=
  (accumulate_agrees_with_calculate [sampleUserMessage] "claude-sonnet-4-20250514").2.2.2 rfl

/-- C1 counterexample: at one user message of four characters and an
unrecognized model identifier the two paths disagree on percentUsed (the
incremental page path divides by the fixed 180000, the bulk library path by
the 150000 default), so the final TokenUsage values are not equal. -/
theorem accumulate_calculate_percent_counterexample :
    (accumulateTokenUsage [sampleUserMessage]).percentUsed ≠
      (calculateTokenUsage [sampleUserMessage] "experimental-model").percentUsed := by
  have hest : estimateTokens "abcd" = 1 := by
    rw [estimateTokens_eq]
    rfl
  have hml : modelLimit "experimental-model" = 150000 := by rfl
  have hacc : (accumulateTokenUsage [sampleUserMessage]).percentUsed = (1 : ℚ) / 180000 := by
    simp [accumulateTokenUsage, applyTurn, sampleUserMessage, messageTokens, jsOrNat, hest,
      updateTokenUsage, initialTokenUsage, MODEL_LIMIT]
  have hcalc : (calculateTokenUsage [sampleUserMessage] "experimental-model").percentUsed =
      (1 : ℚ) / 150000 := by
    simp [calculateTokenUsage, tallyMessage, sampleUserMessage, messageTokens, jsOrNat, hest, hml]
  rw [hacc, hcalc]
  norm_num

/-- C3: inserting a checkpoint first demotes every active row of the same
session and then persists the new row with status active, so after
inserting two active checkpoints in sequence for the same session exactly
one row of that session holds status active (the new one) and the earlier
inserted row is superseded. -/
theorem checkpoint_insert_single_active (rows : List StoredCheckpoint)
    (cp1 cp2 : CheckpointPost) (t1 t2 : String)
    (hs : cp2.sessionId = cp1.sessionId) :
    activeFor cp1.sessionId (insertCheckpoint cp2 t2 (insertCheckpoint cp1 t1 rows)) =
      [rowOfPost cp2 t2] ∧
    (activeFor cp1.sessionId (insertCheckpoint cp2 t2 (insertCheckpoint cp1 t1 rows))).length = 1 ∧
    { rowOfPost cp1 t1 with status := "superseded" } ∈
      insertCheckpoint cp2 t2 (insertCheckpoint cp1 t1 rows) := by
  have h1 : activeFor cp1.sessionId
      (insertCheckpoint cp2 t2 (insertCheckpoint cp1 t1 rows)) = [rowOfPost cp2 t2] := by
    rw [← hs]
    exact activeFor_insert cp2 t2 _
  refine ⟨h1, by rw [h1]; rfl, ?_⟩
  have hmem : rowOfPost cp1 t1 ∈ insertCheckpoint cp1 t1 rows := by
    simp [insertCheckpoint]
  have himg : (if isActiveFor cp2.sessionId (rowOfPost cp1 t1) = true then
        { rowOfPost cp1 t1 with status := "superseded" } else rowOfPost cp1 t1) ∈
      demoteActive cp2.sessionId (insertCheckpoint cp1 t1 rows) :=
    List.mem_map_of_mem
      (fun r => if isActiveFor cp2.sessionId r then { r with status := "superseded" } else r) hmem
  rw [if_pos (by simp [isActiveFor, rowOfPost, hs])] at himg
  exact List.mem_append_left _ himg

/-- Witness for C3 at two concrete payloads of the same session. -/
theorem checkpoint_insert_single_active_witness :
    activeFor "s1" (insertCheckpoint (samplePost "s1" "c2") "n2"
        (insertCheckpoint (samplePost "s1" "c1") "n1" [])) =
      [rowOfPost (samplePost "s1" "c2") "n2"] :=
  (checkpoint_insert_single_active [] (samplePost "s1" "c1") (samplePost "s1" "c2")
    "n1" "n2" rfl).1

/-- C5 (code evidence at the failing input): when the save request resolves
with an error response because the store write failed, handleSaveCheckpoint
still clears the conversation, zeroes the usage and draws a fresh session
id — the in-memory state is not left unchanged, because the page never
inspects the response status and a fetch promise only rejects on network
errors. -/
theorem save_failure_still_resets_session :
    handleSaveCheckpoint
        { messages := [sampleUserMessage]
          tokenUsage := updateTokenUsage initialTokenUsage 1 0
          sessionId := "s1" }
        (SaveOutcome.httpResponse false) "s2" =
      { messages := [], tokenUsage := initialTokenUsage, sessionId := "s2" } ∧
    handleSaveCheckpoint
        { messages := [sampleUserMessage]
          tokenUsage := updateTokenUsage initialTokenUsage 1 0
          sessionId := "s1" }
        (SaveOutcome.httpResponse false) "s2" ≠
      { messages := [sampleUserMessage]
        tokenUsage := updateTokenUsage initialTokenUsage 1 0
        sessionId := "s1" } := by
  refine ⟨rfl, ?_⟩
  intro h
  have hm := congrArg SessionSnapshot.messages h
  simp [handleSaveCheckpoint] at hm

/-- C6: handleResume rehydrates the session from the checkpoint — the
resulting message list is the stored messages plus exactly one additional
user-authored message holding the stored continuation prompt, tokenUsage
and sessionId are taken from the checkpoint, a status-update request with
status resumed is issued for the checkpoint id, and applying that update in
the store moves the row with that id to status resumed. -/
theorem handleResume_spec (cp : Checkpoint) (resumeMessageId nowTs patchTs : String)
    (rows : List StoredCheckpoint) :
    (∃ u : Message,
      (handleResume cp resumeMessageId nowTs).state.messages = cp.messages ++ [u] ∧
      u.role = Role.user ∧ u.content = cp.continuationPrompt) ∧
    (handleResume cp resumeMessageId nowTs).state.tokenUsage = cp.tokenUsage ∧
    (handleResume cp resumeMessageId nowTs).state.sessionId = cp.sessionId ∧
    (handleResume cp resumeMessageId nowTs).statusUpdate = (cp.id, "resumed") ∧
    (handleResume cp resumeMessageId nowTs).submitted = cp.continuationPrompt ∧
    ∀ r ∈ rows, r.id = cp.id →
      { r with status := "resumed", updatedAt := patchTs } ∈
        updateStatus cp.id "resumed" patchTs rows := by
  constructor
  · exact ⟨{ id := resumeMessageId, role := Role.user, content := cp.continuationPrompt, timestamp := nowTs, tokens := none }, rfl, rfl, rfl⟩
  refine ⟨rfl, rfl, rfl, rfl, ?_⟩
  intro r hr hid
  have himg : (if r.id = cp.id then
        { r with status := "resumed", updatedAt := patchTs } else r) ∈
      updateStatus cp.id "resumed" patchTs rows :=
    List.mem_map_of_mem
      (fun r => if r.id = cp.id then { r with status := "resumed", updatedAt := patchTs } else r) hr
  rw [if_pos hid] at himg
  exact himg

/-- Witness for C6 at a concrete checkpoint and a one-row store. -/
theorem handleResume_spec_witness :
    (handleResume sampleCheckpoint "r1" "t1").state.sessionId = sampleCheckpoint.sessionId ∧
    { sampleStored with status := "resumed", updatedAt := "t2" } ∈
      updateStatus sampleCheckpoint.id "resumed" "t2" [sampleStored] :=
  ⟨(handleResume_spec sampleCheckpoint "r1" "t1" "t2" [sampleStored]).2.2.1,
   (handleResume_spec sampleCheckpoint "r1" "t1" "t2" [sampleStored]).2.2.2.2.2
     sampleStored (by simp) rfl⟩

/-- C9 (amended): both generators render the last N messages (5 in the
backend generator, 6 in the client one); each rendered message is the
uppercased role, a bounded prefix of the content (200 units backend, 150
client) and a trailing three-dot marker which is appended unconditionally
(so it also appears when nothing was cut); and each prompt ends with its
explicit instruction line directing immediate continuation. -/
theorem continuation_prompt_rendering_spec :
    (∀ cp : SessionCheckpoint,
      (lastSlice 5 cp.messages).length = min cp.messages.length 5 ∧
      (∃ pre : String, generateContinuationPrompt cp =
        pre ++ ("**INSTRUCTION:** Continue from \"" ++ cp.currentStep ++
          "\" immediately. No confirmation needed.")) ∧
      ∀ m ∈ lastSlice 5 cp.messages,
        (∃ pre2 : String, renderRecentMessage m = pre2 ++ "...") ∧
        renderRecentMessage m =
          roleUpper m.role ++ ": " ++ jsSliceTo m.content 200 ++ "..." ∧
        (jsSliceTo m.content 200).length = min m.content.length 200) ∧
    ∀ (messages : List Message) (checkpointTask : String),
      (lastSlice 6 messages).length = min messages.length 6 ∧
      (∃ pre : String, clientGenerateContinuationPrompt messages checkpointTask =
        pre ++ "**INSTRUCTION:** Continue the conversation from where we left off. No need to reintroduce yourself or ask what we were doing - just pick up naturally.") ∧
      ∀ m ∈ lastSlice 6 messages,
        (∃ pre2 : String, clientRenderRecentMessage m = pre2 ++ "...") ∧
        clientRenderRecentMessage m =
          roleUpper m.role ++ ": " ++ jsSliceTo m.content 150 ++ "..." ∧
        (jsSliceTo m.content 150).length = min m.content.length 150 := by
  constructor
  · intro cp
    refine ⟨?_, ⟨_, rfl⟩, ?_⟩
    · rw [lastSlice, List.length_drop]
      omega
    · intro m _
      refine ⟨⟨roleUpper m.role ++ ": " ++ jsSliceTo m.content 200, rfl⟩, rfl, ?_⟩
      show (List.take 200 m.content.data).length = min m.content.length 200
      rw [List.length_take, Nat.min_comm]
      rfl
  · intro messages checkpointTask
    refine ⟨?_, ⟨_, rfl⟩, ?_⟩
    · rw [lastSlice, List.length_drop]
      omega
    · intro m _
      refine ⟨⟨roleUpper m.role ++ ": " ++ jsSliceTo m.content 150, rfl⟩, rfl, ?_⟩
      show (List.take 150 m.content.data).length = min m.content.length 150
      rw [List.length_take, Nat.min_comm]
      rfl

/-- Witness for C9 amended at a concrete checkpoint and message. -/
theorem continuation_prompt_rendering_spec_witness :
    (∃ pre2 : String, renderRecentMessage sampleUserMessage = pre2 ++ "...") ∧
    (jsSliceTo sampleUserMessage.content 200).length =
      min sampleUserMessage.content.length 200 :=
  ⟨((continuation_prompt_rendering_spec.1 sampleSessionCheckpoint).2.2 sampleUserMessage
      (by simp [sampleSessionCheckpoint, lastSlice])).1,
   ((continuation_prompt_rendering_spec.1 sampleSessionCheckpoint).2.2 sampleUserMessage
      (by simp [sampleSessionCheckpoint, lastSlice])).2.2⟩

/-- C9 counterexample: the three-dot marker also appears when nothing was
truncated — at a two-character message the rendered line carries the marker
although the content does not exceed the 200-unit prefix bound, refuting
that the marker appears exactly when the content exceeds the prefix. -/
theorem ellipsis_without_truncation :
    (∃ pre : String,
      renderRecentMessage
        { id := "m0", role := Role.user, content := "hi", timestamp := "t", tokens := none } =
        pre ++ "...") ∧
    ¬ 200 < ("hi" : String).length :=
  ⟨⟨"USER: hi", rfl⟩, by decide⟩

/-- C10: inside calculateTokenUsage a present-but-zero tokens field falls
back to the estimate of the content (the fallback tests falsiness, not
presence), a positive tokens field contributes exactly its value, and the
per-message count is exactly what the bulk recomputation adds for the
message. -/
theorem zero_tokens_fall_back_to_estimate (msg : Message) (rest : List Message)
    (model : String) :
    (msg.tokens = some 0 → messageTokens msg = estimateTokens msg.content) ∧
    (∀ t : Nat, msg.tokens = some t → 0 < t → messageTokens msg = t) ∧
    (calculateTokenUsage (msg :: rest) model).totalTokens =
      messageTokens msg + (calculateTokenUsage rest model).totalTokens := by
  refine ⟨?_, ?_, ?_⟩
  · intro h
    rw [messageTokens, h]
    rfl
  · intro t h ht
    rw [messageTokens, h]
    show (if t = 0 then estimateTokens msg.content else t) = t
    rw [if_neg (by omega)]
  · show (List.foldl tallyMessage (tallyMessage (0, 0) msg) rest).1 +
        (List.foldl tallyMessage (tallyMessage (0, 0) msg) rest).2 =
      messageTokens msg +
        ((rest.foldl tallyMessage (0, 0)).1 + (rest.foldl tallyMessage (0, 0)).2)
    rw [foldl_tally_shift rest (tallyMessage (0, 0) msg)]
    cases h : msg.role <;> simp [tallyMessage, h] <;> omega

/-- Witness for C10 at a concrete zero-tokens message. -/
theorem zero_tokens_fall_back_witness :
    messageTokens
      { id := "mz", role := Role.user, content := "abcdefgh", timestamp := "t",
        tokens := some 0 } = estimateTokens "abcdefgh" :=
  (zero_tokens_fall_back_to_estimate
    { id := "mz", role := Role.user, content := "abcdefgh", timestamp := "t",
      tokens := some 0 } [] "m").1 rfl

end LifeOS
